import Mathlib

/-!
# Carousel state machines of `script.js`

A shallow embedding of the three sliders of `src/script.js`:

* `HeroSlider`  : the `heroSlider` closure (lines 127-324),
* `Schools`     : the `mobileSchools` closure (lines 341-408),
* `Exhibition`  : the `exhibition` closure (lines 412-431).

Conventions.

* JavaScript numbers that hold indices and pixel coordinates are `Int`.
  The JavaScript operator `%` truncates towards zero, so it is `Int.tmod`.
* `slides.length` is the length of the list of slides held in the state; with
  no slide at all `x % 0` is `NaN` in JavaScript, which `Int` does not
  represent, so every statement about index arithmetic assumes a non-empty
  slide list.
* The browser's timer table is part of the state: `live` lists the handles of
  the intervals created by `setInterval` and not yet cleared, `fresh` is the
  next handle, and `pending` counts the `setTimeout(startAuto, 1000)`
  callbacks that are scheduled and have not run yet.
* A handler that throws stops there: what it has written so far stays, the
  rest of the handler does not run.  `updateSlide` throws a `TypeError` at
  `currentSlide.querySelector` when `slides[currentIndex]` is `undefined`.
* The play button is part of the state: its `aria-pressed` attribute and the
  inline `display` of its two icons, which `startAuto` and `stopAuto` write.
  What the page declares for them is an argument of `init`.
* Styling that no statement below reads (indicator highlighting, the CSS
  transform of a track) is left out.
-/

namespace HeroSlider

/-- One element of `slides`: the three classes `updateSlide` manages and the
`aria-hidden` attribute. -/
structure Slide where
  active : Bool
  prev : Bool
  next : Bool
  ariaHidden : Bool
deriving DecidableEq, Repr

/-- The play button: its `aria-pressed` attribute (`some true` for `'true'`,
`some false` for `'false'`, `none` for no attribute or any other value) and the
inline `style.display` of its `.play-icon` and `.pause-icon` (`some true` for
`'block'`, `some false` for `'none'`, `none` for no inline value or any
other). -/
structure PlayButton where
  ariaPressed : Option Bool
  playIcon : Option Bool
  pauseIcon : Option Bool
deriving DecidableEq, Repr

/-- What `startAuto` writes on the play button (lines 185-187):
`aria-pressed = 'false'`, play icon `'block'`, pause icon `'none'`. -/
def PlayButton.started : PlayButton :=
  { ariaPressed := some false, playIcon := some true, pauseIcon := some false }

/-- What `stopAuto` writes on the play button (lines 194-196):
`aria-pressed = 'true'`, play icon `'none'`, pause icon `'block'`. -/
def PlayButton.stopped : PlayButton :=
  { ariaPressed := some true, playIcon := some false, pauseIcon := some true }

/-- A play button for which the page declares neither `aria-pressed` nor an
inline `display` on its icons. -/
def PlayButton.bare : PlayButton :=
  { ariaPressed := none, playIcon := none, pauseIcon := none }

/-- The variables captured by the `heroSlider` closure, the play button, and
the browser's timer table. -/
structure State where
  slides : List Slide
  currentIndex : Int
  playing : Bool
  playBtn : PlayButton
  timer : Option Nat
  startY : Int
  startX : Int
  isDragging : Bool
  live : List Nat
  fresh : Nat
  pending : Nat
  announced : Nat
deriving DecidableEq, Repr

/-- The body of the `slides.forEach` callback of `updateSlide` (lines 140-151)
for the slide at position `i`: the three classes are removed, `aria-hidden` is
set to `i !== currentIndex`, and at most one class is added back. -/
def renderSlide (len : Nat) (currentIndex : Int) (i : Nat) : Slide :=
  if (i : Int) = currentIndex then
    { active := true, prev := false, next := false, ariaHidden := false }
  else if (i : Int) = currentIndex - 1 ∨ (currentIndex = 0 ∧ (i : Int) = (len : Int) - 1) then
    { active := false, prev := true, next := false, ariaHidden := true }
  else if (i : Int) = currentIndex + 1 ∨ (currentIndex = (len : Int) - 1 ∧ i = 0) then
    { active := false, prev := false, next := true, ariaHidden := true }
  else
    { active := false, prev := false, next := false, ariaHidden := true }

/-- The function `updateSlide` (lines 138-162).  All slides are re-rendered;
then `slides[currentIndex]` is read, which is `undefined` outside
`0 .. slides.length - 1`, and in that case the announcement is not made and the
function throws.  The Boolean is `true` when the function returns normally. -/
def updateSlide (s : State) : State × Bool :=
  let rendered := (List.range s.slides.length).map (renderSlide s.slides.length s.currentIndex)
  let s1 := { s with slides := rendered }
  if 0 ≤ s.currentIndex ∧ s.currentIndex < (s.slides.length : Int) then
    ({ s1 with announced := s1.announced + 1 }, true)
  else
    (s1, false)

/-- The function `nextSlide` (lines 164-167). -/
def nextSlide (s : State) : State × Bool :=
  updateSlide { s with currentIndex := (s.currentIndex + 1).tmod (s.slides.length : Int) }

/-- The function `prevSlide` (lines 169-172). -/
def prevSlide (s : State) : State × Bool :=
  updateSlide { s with
    currentIndex := (s.currentIndex - 1 + (s.slides.length : Int)).tmod (s.slides.length : Int) }

/-- The function `goToSlide` (lines 174-177). -/
def goToSlide (index : Int) (s : State) : State × Bool :=
  updateSlide { s with currentIndex := index }

/-- The browser's `clearInterval`: the interval with that handle, if any, is
removed from the timer table; `clearInterval(null)` does nothing. -/
def clearInterval (h : Option Nat) (live : List Nat) : List Nat :=
  match h with
  | none => live
  | some t => live.filter (fun x => x != t)

/-- The function `startAuto` (lines 180-188). -/
def startAuto (reduceMotion : Bool) (s : State) : State :=
  let s1 := if !reduceMotion then
      { s with timer := some s.fresh, live := s.fresh :: s.live, fresh := s.fresh + 1 }
    else s
  { s1 with playing := true, playBtn := PlayButton.started }

/-- The function `stopAuto` (lines 190-197). -/
def stopAuto (s : State) : State :=
  { s with live := clearInterval s.timer s.live, timer := none, playing := false,
           playBtn := PlayButton.stopped }

/-- The statement `if (!reduceMotion) setTimeout(startAuto, 1000)` that ends the
manual-navigation handlers; it is reached only when the navigation before it
returned normally. -/
def scheduleRestart (reduceMotion : Bool) (r : State × Bool) : State :=
  if r.2 && !reduceMotion then { r.1 with pending := r.1.pending + 1 } else r.1

/-- The values of `e.key` the `keydown` handler distinguishes. -/
inductive Key where
  | arrowUp
  | arrowLeft
  | arrowDown
  | arrowRight
  | space
  | spacebar
  | other
deriving DecidableEq, Repr

/-- What can happen to the hero slider after construction: the DOM events it
listens to, the firing of the interval with handle `h`, and the running of one
scheduled `setTimeout(startAuto, 1000)` callback. -/
inductive Event where
  | playClick
  | prevClick
  | nextClick
  | indicatorClick (index : Nat)
  | mouseEnter
  | mouseLeave
  | keyDown (key : Key)
  | touchStart (clientX clientY : Int)
  | touchMove
  | touchEnd (clientX clientY : Int)
  | tick (h : Nat)
  | settle
deriving DecidableEq, Repr

/-- The click handler of the play button (lines 203-206), which is also the
`' '` / `'Spacebar'` case of the `keydown` handler (lines 252-257). -/
def togglePlay (reduceMotion : Bool) (s : State) : State :=
  if s.playing then stopAuto s else startAuto reduceMotion s

/-- The `touchend` handler (lines 278-309). -/
def touchEnd (reduceMotion : Bool) (endX endY : Int) (s : State) : State :=
  if !s.isDragging then s
  else
    let s1 := { s with isDragging := false }
    let deltaY := s.startY - endY
    let deltaX := s.startX - endX
    let r : State × Bool :=
      if |deltaY| > |deltaX| then
        if |deltaY| > 50 then
          if deltaY > 0 then nextSlide s1 else prevSlide s1
        else (s1, true)
      else
        if |deltaX| > 50 then
          if deltaX > 0 then nextSlide s1 else prevSlide s1
        else (s1, true)
    scheduleRestart reduceMotion r

/-- One event handled by the hero slider (lines 203-309), or one timer
callback. -/
def step (reduceMotion : Bool) (s : State) : Event → State
  | .playClick => togglePlay reduceMotion s
  | .prevClick => scheduleRestart reduceMotion (prevSlide (stopAuto s))
  | .nextClick => scheduleRestart reduceMotion (nextSlide (stopAuto s))
  | .indicatorClick index =>
      scheduleRestart reduceMotion (goToSlide (index : Int) (stopAuto s))
  | .mouseEnter => stopAuto s
  | .mouseLeave => if !reduceMotion then startAuto reduceMotion s else s
  | .keyDown .arrowUp => scheduleRestart reduceMotion (prevSlide (stopAuto s))
  | .keyDown .arrowLeft => scheduleRestart reduceMotion (prevSlide (stopAuto s))
  | .keyDown .arrowDown => scheduleRestart reduceMotion (nextSlide (stopAuto s))
  | .keyDown .arrowRight => scheduleRestart reduceMotion (nextSlide (stopAuto s))
  | .keyDown .space => togglePlay reduceMotion s
  | .keyDown .spacebar => togglePlay reduceMotion s
  | .keyDown .other => s
  | .touchStart clientX clientY =>
      stopAuto { s with startY := clientY, startX := clientX, isDragging := true }
  | .touchMove => s
  | .touchEnd clientX clientY => touchEnd reduceMotion clientX clientY s
  | .tick h => if h ∈ s.live then (nextSlide s).1 else s
  | .settle =>
      if 0 < s.pending then startAuto reduceMotion { s with pending := s.pending - 1 } else s

/-- The events of a list handled one after the other. -/
def run (reduceMotion : Bool) (s : State) (es : List Event) : State :=
  es.foldl (step reduceMotion) s

/-- The state once the `heroSlider` closure has run (lines 128-312): the
variables get their initial values, autoplay is started unless reduced motion
is requested, and `updateSlide()` renders for the first time.  `markup` is the
state of the slides in the page and `button` that of the play button. -/
def init (reduceMotion : Bool) (markup : List Slide) (button : PlayButton) : State :=
  let s0 : State :=
    { slides := markup, currentIndex := 0, playing := true, playBtn := button, timer := none,
      startY := 0, startX := 0, isDragging := false,
      live := [], fresh := 0, pending := 0, announced := 0 }
  let s1 := if !reduceMotion then startAuto reduceMotion s0 else s0
  (updateSlide s1).1

/-- A slide carrying none of the managed classes, as the page may declare it. -/
def blank : Slide :=
  { active := false, prev := false, next := false, ariaHidden := false }

/-- A hero slider of four slides and a bare play button, right after
construction. -/
def four (reduceMotion : Bool) : State :=
  init reduceMotion [blank, blank, blank, blank] PlayButton.bare

/-- The navigation requests of the hero slider, by the function they call. -/
inductive Request where
  | next
  | previous
  | goTo (index : Int)
deriving DecidableEq, Repr

/-- The function a navigation request calls. -/
def request (s : State) : Request → State
  | .next => (nextSlide s).1
  | .previous => (prevSlide s).1
  | .goTo index => (goToSlide index s).1

/-- A `goTo` request is in range when its index is a position of `slides`. -/
def Request.inRange (len : Nat) : Request → Prop
  | .goTo index => 0 ≤ index ∧ index < (len : Int)
  | _ => True

instance (len : Nat) (r : Request) : Decidable (r.inRange len) := by
  cases r <;> unfold Request.inRange <;> infer_instance

/-- A touch that starts at `(startX, startY)` and ends at `(endX, endY)`:
the `touchstart` handler followed by the `touchend` handler. -/
def swipe (reduceMotion : Bool) (s : State) (startX startY endX endY : Int) : State :=
  run reduceMotion s [.touchStart startX startY, .touchEnd endX endY]

/-- What a navigation shows: the index, the rendered slides, and the number of
announcements made so far. -/
def shown (s : State) : Int × List Slide × Nat :=
  (s.currentIndex, s.slides, s.announced)

end HeroSlider

namespace Schools

/-- The click handler of the previous arrow (line 375), on `idx`, with
`len = cards.length`. -/
def prevArrow (len : Nat) (idx : Int) : Int :=
  (idx - 1 + (len : Int)).tmod (len : Int)

/-- The click handler of the next arrow (line 376), on `idx`. -/
def nextArrow (len : Nat) (idx : Int) : Int :=
  (idx + 1).tmod (len : Int)

/-- The variables of the `mobileSchools` closure (`initialized`, `idx`), what
`init` builds and captures (`cards.length`, the `active` class of each dot, the
touch origin `sx`), the number of times the body of `init` has run, which is
the number of arrow and swipe handlers registered, and the two attributes
`check` writes. -/
structure State where
  initialized : Bool
  idx : Int
  cards : Nat
  dots : List Bool
  sx : Int
  mounts : Nat
  gridHidden : Bool
  mobileHidden : Bool
deriving DecidableEq, Repr

/-- The function `move` (lines 388-391), on the dots: dot `i` is `active`
exactly when `i === idx`. -/
def move (s : State) : State :=
  { s with dots := (List.range s.dots.length).map (fun (i : Nat) => decide ((i : Int) = s.idx)) }

/-- The click handler of the previous arrow (line 375). -/
def prevHandler (s : State) : State :=
  move { s with idx := prevArrow s.cards s.idx }

/-- The click handler of the next arrow (line 376). -/
def nextHandler (s : State) : State :=
  move { s with idx := nextArrow s.cards s.idx }

/-- The click handler of dot `i` (line 371). -/
def dotHandler (i : Nat) (s : State) : State :=
  move { s with idx := (i : Int) }

/-- The `touchstart` handler (line 380). -/
def touchStartHandler (clientX : Int) (s : State) : State :=
  { s with sx := clientX }

/-- The `touchend` handler (lines 381-386). -/
def touchEndHandler (clientX : Int) (s : State) : State :=
  let dx := clientX - s.sx
  let s1 := if dx < -30 then { s with idx := min ((s.cards : Int) - 1) (s.idx + 1) } else s
  let s2 := if dx > 30 then { s1 with idx := max 0 (s1.idx - 1) } else s1
  move s2

/-- The function `init` (lines 351-394), with `grid` the number of children of
the grid: nothing happens once `initialized`; otherwise the cards are cloned,
one dot per card is created, the arrow and swipe handlers are registered,
`move()` renders and `initialized` is set. -/
def init (grid : Nat) (s : State) : State :=
  if s.initialized then s
  else
    let s1 := { s with cards := grid, dots := List.replicate grid false, sx := 0,
                       mounts := s.mounts + 1 }
    { move s1 with initialized := true }

/-- The function `check` (lines 396-405), with `innerWidth = window.innerWidth`. -/
def check (grid : Nat) (innerWidth : Int) (s : State) : State :=
  if innerWidth ≤ 640 then init grid { s with gridHidden := true, mobileHidden := false }
  else { s with gridHidden := false, mobileHidden := true }

/-- What can happen to the schools slider after construction.  A dot exists
only once `init` has created it. -/
inductive Event where
  | resize (innerWidth : Int)
  | prevClick
  | nextClick
  | dotClick (i : Nat)
  | touchStart (clientX : Int)
  | touchEnd (clientX : Int)
deriving DecidableEq, Repr

/-- One event: `resize` calls `check`; an arrow click or a touch runs every
handler `init` has registered for it, one after the other; a click on dot `i`
runs that dot's handler when the dot exists. -/
def step (grid : Nat) (s : State) : Event → State
  | .resize innerWidth => check grid innerWidth s
  | .prevClick => prevHandler^[s.mounts] s
  | .nextClick => nextHandler^[s.mounts] s
  | .dotClick i => if i < s.dots.length then dotHandler i s else s
  | .touchStart clientX => (touchStartHandler clientX)^[s.mounts] s
  | .touchEnd clientX => (touchEndHandler clientX)^[s.mounts] s

/-- The events of a list handled one after the other. -/
def run (grid : Nat) (s : State) (es : List Event) : State :=
  es.foldl (step grid) s

/-- The state once the `mobileSchools` closure has run (lines 342-407), in a
window of width `innerWidth`: `initialized = false`, `idx = 0`, then `check()`. -/
def construct (grid : Nat) (innerWidth : Int) : State :=
  check grid innerWidth
    { initialized := false, idx := 0, cards := 0, dots := [], sx := 0, mounts := 0,
      gridHidden := false, mobileHidden := true }

/-- The body of `init` has run exactly when `initialized` is set, and then
once. -/
def MountedOnce (s : State) : Prop :=
  (s.initialized = true ∧ s.mounts = 1) ∨ (s.initialized = false ∧ s.mounts = 0)

end Schools

namespace Exhibition

/-- The variable `idx` of the `exhibition` closure and the `aria-hidden`
attribute of each child of the track. -/
structure State where
  cards : List Bool
  idx : Int
deriving DecidableEq, Repr

/-- The function `update` (lines 418-424): nothing happens on an empty track;
otherwise card `i` gets `aria-hidden = (i < idx || i > idx + 2)`. -/
def update (s : State) : State :=
  if s.cards.length = 0 then s
  else
    let hidden := fun (i : Nat) => decide ((i : Int) < s.idx ∨ (i : Int) > s.idx + 2)
    { s with cards := (List.range s.cards.length).map hidden }

/-- The two arrows. -/
inductive Click where
  | prev
  | next
deriving DecidableEq, Repr

/-- The click handlers (lines 426-427). -/
def click (s : State) : Click → State
  | .prev => update { s with idx := max 0 (s.idx - 1) }
  | .next =>
      let m : Int := max 0 ((s.cards.length : Int) - 3)
      update { s with idx := min m (s.idx + 1) }

/-- The clicks of a list handled one after the other. -/
def run (s : State) (cs : List Click) : State :=
  cs.foldl click s

/-- The state once the closure has run (lines 413-430): `idx = 0` and a first
`update()`.  `markup` is the `aria-hidden` state of the cards in the page. -/
def init (markup : List Bool) : State :=
  update { cards := markup, idx := 0 }

/-- The bounds `click` keeps: `0 ≤ idx ≤ max 0 (length - 3)`. -/
def Clamped (s : State) : Prop :=
  0 ≤ s.idx ∧ s.idx ≤ max 0 ((s.cards.length : Int) - 3)

/-- The window `update` leaves visible: card `i` with `idx ≤ i ≤ idx + 2`. -/
def inWindow (idx : Int) (i : Nat) : Prop :=
  idx ≤ (i : Int) ∧ (i : Int) ≤ idx + 2

/-- The cards are as `update` renders them for the current `idx`. -/
def Rendered (s : State) : Prop :=
  s.cards = (List.range s.cards.length).map
    (fun (i : Nat) => decide ((i : Int) < s.idx ∨ (i : Int) > s.idx + 2))

end Exhibition

/-! ## Index arithmetic -/

/-- JavaScript `(i + 1) % n` on a valid index. -/
theorem tmod_succ_of_lt (n i : Int) (h0 : 0 ≤ i) (h1 : i < n) :
    (i + 1).tmod n = if i + 1 = n then 0 else i + 1 := by
  split
  · next h => rw [h]; exact Int.tmod_self
  · next h => exact Int.tmod_eq_of_lt (by omega) (by omega)

/-- JavaScript `(i - 1 + n) % n` on a valid index. -/
theorem tmod_pred_of_lt (n i : Int) (h0 : 0 ≤ i) (h1 : i < n) :
    (i - 1 + n).tmod n = if i = 0 then n - 1 else i - 1 := by
  split
  · next h =>
    subst h
    have he : (0 : Int) - 1 + n = n - 1 := by omega
    rw [he]
    exact Int.tmod_eq_of_lt (by omega) (by omega)
  · next h =>
    have ht : (i - 1 + n).tmod n = (i - 1 + n) % n := Int.tmod_eq_emod (by omega) (by omega)
    rw [ht, Int.add_emod_self]
    exact Int.emod_eq_of_lt (by omega) (by omega)

/-- Next then previous, on indices. -/
theorem tmod_succ_pred (n i : Int) (h0 : 0 ≤ i) (h1 : i < n) :
    ((i + 1).tmod n - 1 + n).tmod n = i := by
  rw [tmod_succ_of_lt n i h0 h1]
  split
  · rw [tmod_pred_of_lt n 0 (by omega) (by omega)]; simp; omega
  · rw [tmod_pred_of_lt n (i + 1) (by omega) (by omega)]
    rw [if_neg (by omega)]; omega

/-- Previous then next, on indices. -/
theorem tmod_pred_succ (n i : Int) (h0 : 0 ≤ i) (h1 : i < n) :
    ((i - 1 + n).tmod n + 1).tmod n = i := by
  rw [tmod_pred_of_lt n i h0 h1]
  split
  · rw [tmod_succ_of_lt n (n - 1) (by omega) (by omega)]; simp; omega
  · rw [tmod_succ_of_lt n (i - 1) (by omega) (by omega)]
    rw [if_neg (by omega)]; omega

namespace HeroSlider

@[simp] theorem updateSlide_currentIndex (s : State) :
    (updateSlide s).1.currentIndex = s.currentIndex := by
  unfold updateSlide; split <;> rfl

@[simp] theorem updateSlide_slides (s : State) :
    (updateSlide s).1.slides =
      (List.range s.slides.length).map (renderSlide s.slides.length s.currentIndex) := by
  unfold updateSlide; split <;> rfl

@[simp] theorem updateSlide_length (s : State) :
    (updateSlide s).1.slides.length = s.slides.length := by
  simp

@[simp] theorem updateSlide_playing (s : State) : (updateSlide s).1.playing = s.playing := by
  unfold updateSlide; split <;> rfl

@[simp] theorem updateSlide_timer (s : State) : (updateSlide s).1.timer = s.timer := by
  unfold updateSlide; split <;> rfl

@[simp] theorem updateSlide_live (s : State) : (updateSlide s).1.live = s.live := by
  unfold updateSlide; split <;> rfl

@[simp] theorem updateSlide_fresh (s : State) : (updateSlide s).1.fresh = s.fresh := by
  unfold updateSlide; split <;> rfl

@[simp] theorem updateSlide_pending (s : State) : (updateSlide s).1.pending = s.pending := by
  unfold updateSlide; split <;> rfl

theorem updateSlide_ok (s : State) :
    (updateSlide s).2 = decide (0 ≤ s.currentIndex ∧ s.currentIndex < (s.slides.length : Int)) := by
  unfold updateSlide; split <;> simp_all

end HeroSlider

/-- C1. In the wrapping sliders, from every valid index of a non-empty slider,
next followed by previous, and previous followed by next, give the index back:
for the hero slider's `nextSlide` / `prevSlide` (which also return normally)
and for the arrows of the schools slider. -/
theorem wrapping_next_previous_roundtrip (s : HeroSlider.State) (len : Nat) (idx : Int)
    (hs0 : 0 ≤ s.currentIndex) (hs1 : s.currentIndex < (s.slides.length : Int))
    (hi0 : 0 ≤ idx) (hi1 : idx < (len : Int)) :
    (HeroSlider.prevSlide (HeroSlider.nextSlide s).1).1.currentIndex = s.currentIndex ∧
    (HeroSlider.nextSlide (HeroSlider.prevSlide s).1).1.currentIndex = s.currentIndex ∧
    (HeroSlider.prevSlide (HeroSlider.nextSlide s).1).2 = true ∧
    (HeroSlider.nextSlide (HeroSlider.prevSlide s).1).2 = true ∧
    Schools.prevArrow len (Schools.nextArrow len idx) = idx ∧
    Schools.nextArrow len (Schools.prevArrow len idx) = idx := by
  refine ⟨?_, ?_, ?_, ?_, ?_, ?_⟩
  · simp [HeroSlider.prevSlide, HeroSlider.nextSlide, tmod_succ_pred _ _ hs0 hs1]
  · simp [HeroSlider.prevSlide, HeroSlider.nextSlide, tmod_pred_succ _ _ hs0 hs1]
  · simp [HeroSlider.prevSlide, HeroSlider.nextSlide, HeroSlider.updateSlide_ok,
      tmod_succ_pred _ _ hs0 hs1, hs0, hs1]
  · simp [HeroSlider.prevSlide, HeroSlider.nextSlide, HeroSlider.updateSlide_ok,
      tmod_pred_succ _ _ hs0 hs1, hs0, hs1]
  · exact tmod_succ_pred _ _ hi0 hi1
  · exact tmod_pred_succ _ _ hi0 hi1

/-- C1, at four slides and index 0 (previous wraps to the last slide), and at
four cards and index 3 (next wraps to the first card). -/
theorem wrapping_next_previous_roundtrip_witness :
    (HeroSlider.prevSlide (HeroSlider.nextSlide (HeroSlider.four false)).1).1.currentIndex
      = (HeroSlider.four false).currentIndex ∧
    (HeroSlider.nextSlide (HeroSlider.prevSlide (HeroSlider.four false)).1).1.currentIndex
      = (HeroSlider.four false).currentIndex ∧
    (HeroSlider.prevSlide (HeroSlider.nextSlide (HeroSlider.four false)).1).2 = true ∧
    (HeroSlider.nextSlide (HeroSlider.prevSlide (HeroSlider.four false)).1).2 = true ∧
    Schools.prevArrow 4 (Schools.nextArrow 4 3) = 3 ∧
    Schools.nextArrow 4 (Schools.prevArrow 4 3) = 3 :=
  wrapping_next_previous_roundtrip (HeroSlider.four false) 4 3
    (by decide) (by decide) (by decide) (by decide)

namespace Exhibition

@[simp] theorem update_idx (s : State) : (update s).idx = s.idx := by
  unfold update; split <;> rfl

@[simp] theorem update_length (s : State) : (update s).cards.length = s.cards.length := by
  unfold update; split <;> simp

@[simp] theorem click_length (s : State) (c : Click) :
    (click s c).cards.length = s.cards.length := by
  cases c <;> simp [click]

theorem click_clamped (s : State) (c : Click) (h : Clamped s) : Clamped (click s c) := by
  obtain ⟨h0, h1⟩ := h
  cases c <;> simp only [Clamped, click, update_idx, update_length] <;> omega

theorem run_clamped (cs : List Click) (s : State) (h : Clamped s) :
    Clamped (run s cs) ∧ (run s cs).cards.length = s.cards.length := by
  induction cs generalizing s with
  | nil => exact ⟨h, rfl⟩
  | cons c cs ih =>
    have hc := ih (click s c) (click_clamped s c h)
    simp only [run, List.foldl_cons] at hc ⊢
    exact ⟨hc.1, by rw [hc.2, click_length]⟩

theorem init_clamped (markup : List Bool) : Clamped (init markup) := by
  simp only [Clamped, init, update_idx, update_length]; omega

end Exhibition

/-- C2, as stated, fails: with two cards and one next click `idx` is 0, which
exceeds `length - 3 = -1`. -/
theorem exhibition_idx_exceeds_length_minus_three :
    ¬ ((Exhibition.run (Exhibition.init [false, false]) [Exhibition.Click.next]).idx
        ≤ (([false, false] : List Bool).length : Int) - 3) := by
  decide

/-- C2, amended. In the exhibition slider, for every number of cards and every
finite sequence of next and previous clicks from the initial state, `idx` is at
least 0 and at most `max 0 (length - 3)`, hence at most `length - 3` when there
are at least three cards; with five cards three successive next clicks give
`idx = 1, 2, 2`. -/
theorem exhibition_idx_clamped (markup : List Bool) (cs : List Exhibition.Click) :
    0 ≤ (Exhibition.run (Exhibition.init markup) cs).idx ∧
    (Exhibition.run (Exhibition.init markup) cs).idx ≤ max 0 ((markup.length : Int) - 3) ∧
    (3 ≤ markup.length →
      (Exhibition.run (Exhibition.init markup) cs).idx ≤ (markup.length : Int) - 3) ∧
    (markup.length = 5 →
      (Exhibition.run (Exhibition.init markup) [Exhibition.Click.next]).idx = 1 ∧
      (Exhibition.run (Exhibition.init markup)
        [Exhibition.Click.next, Exhibition.Click.next]).idx = 2 ∧
      (Exhibition.run (Exhibition.init markup)
        [Exhibition.Click.next, Exhibition.Click.next, Exhibition.Click.next]).idx = 2) := by
  have h := Exhibition.run_clamped cs (Exhibition.init markup) (Exhibition.init_clamped markup)
  have hl : (Exhibition.init markup).cards.length = markup.length := by
    simp [Exhibition.init]
  obtain ⟨⟨h0, h1⟩, h2⟩ := h
  rw [h2, hl] at h1
  refine ⟨h0, h1, fun h3 => by omega, fun h5 => ?_⟩
  simp [Exhibition.run, Exhibition.click, Exhibition.init, h5]

/-- C2, amended, at five cards and the clicks next, next, next, previous. -/
theorem exhibition_idx_clamped_witness :
    (Exhibition.run (Exhibition.init [true, true, true, true, true])
      [Exhibition.Click.next, Exhibition.Click.next, Exhibition.Click.next]).idx = 2 ∧
    (Exhibition.run (Exhibition.init [true, true, true, true, true])
      [Exhibition.Click.next, Exhibition.Click.next, Exhibition.Click.next,
        Exhibition.Click.prev]).idx ≤ 2 :=
  ⟨((exhibition_idx_clamped [true, true, true, true, true] []).2.2.2 (by decide)).2.2,
   (exhibition_idx_clamped [true, true, true, true, true]
      [Exhibition.Click.next, Exhibition.Click.next, Exhibition.Click.next,
        Exhibition.Click.prev]).2.2.1 (by decide)⟩

/-! ## Rendering -/

/-- Mathematical `(c - 1) mod n` on a valid index. -/
theorem emod_pred_of_lt (n c : Int) (h0 : 0 ≤ c) (h1 : c < n) :
    (c - 1) % n = if c = 0 then n - 1 else c - 1 := by
  split
  · next h =>
    subst h
    have he : ((0 : Int) - 1) % n = (n - 1) % n := by
      rw [← Int.add_emod_self]; congr 1; omega
    rw [he]
    exact Int.emod_eq_of_lt (by omega) (by omega)
  · next h => exact Int.emod_eq_of_lt (by omega) (by omega)

/-- Mathematical `(c + 1) mod n` on a valid index. -/
theorem emod_succ_of_lt (n c : Int) (h0 : 0 ≤ c) (h1 : c < n) :
    (c + 1) % n = if c + 1 = n then 0 else c + 1 := by
  split
  · next h => rw [h]; exact Int.emod_self
  · next h => exact Int.emod_eq_of_lt (by omega) (by omega)

namespace HeroSlider

theorem renderSlide_active (len : Nat) (c : Int) (i : Nat) :
    (renderSlide len c i).active = decide ((i : Int) = c) := by
  unfold renderSlide; split_ifs <;> simp_all

theorem renderSlide_ariaHidden (len : Nat) (c : Int) (i : Nat) :
    (renderSlide len c i).ariaHidden = decide ((i : Int) ≠ c) := by
  unfold renderSlide; split_ifs <;> simp_all

theorem updateSlide_getElem? (s : State) (i : Nat) (hi : i < s.slides.length) :
    (updateSlide s).1.slides[i]? = some (renderSlide s.slides.length s.currentIndex i) := by
  simp [List.getElem?_range hi]

theorem updateSlide_getElem?_none (s : State) (i : Nat) (hi : s.slides.length ≤ i) :
    (updateSlide s).1.slides[i]? = none := by
  simp [hi]

/-- Exactly one position of `0 .. len - 1` is rendered `active` when the
current index is one of them. -/
theorem countP_active (len : Nat) (c : Int) (h0 : 0 ≤ c) (h1 : c < (len : Int)) :
    List.countP (fun x => x.active)
      ((List.range len).map (renderSlide len c)) = 1 := by
  rw [List.countP_map]
  have hk : c.toNat < len := by omega
  have hc : List.countP ((fun x => x.active) ∘ renderSlide len c) (List.range len)
      = List.count c.toNat (List.range len) := by
    unfold List.count
    apply List.countP_congr
    intro j _
    simp only [Function.comp, renderSlide_active, decide_eq_true_eq, beq_iff_eq]
    omega
  rw [hc]
  exact List.count_eq_one_of_mem (List.nodup_range len) (List.mem_range.2 hk)

end HeroSlider

/-- C3. In the hero slider, for every valid index `i` of a non-empty slide
list, `goToSlide(i)` returns normally with `currentIndex = i`, exactly one
slide carries the class `active`, the slide at position `j` carries it exactly
when `j = i`, and the slide at position `j` has `aria-hidden` false exactly
when `j = i`. -/
theorem hero_goToSlide_single_active (s : HeroSlider.State) (i : Int)
    (h0 : 0 ≤ i) (h1 : i < (s.slides.length : Int)) :
    (HeroSlider.goToSlide i s).2 = true ∧
    (HeroSlider.goToSlide i s).1.currentIndex = i ∧
    (HeroSlider.goToSlide i s).1.slides.length = s.slides.length ∧
    List.countP (fun x => x.active) (HeroSlider.goToSlide i s).1.slides = 1 ∧
    (∀ j : Nat, ((HeroSlider.goToSlide i s).1.slides[j]?).map (fun x => x.active) = some true
        ↔ (j : Int) = i) ∧
    (∀ j : Nat, ((HeroSlider.goToSlide i s).1.slides[j]?).map (fun x => x.ariaHidden)
        = some false ↔ (j : Int) = i) := by
  refine ⟨?_, ?_, ?_, ?_, ?_, ?_⟩
  · simp [HeroSlider.goToSlide, HeroSlider.updateSlide_ok, h0, h1]
  · simp [HeroSlider.goToSlide]
  · simp [HeroSlider.goToSlide]
  · simp only [HeroSlider.goToSlide, HeroSlider.updateSlide_slides]
    exact HeroSlider.countP_active _ i h0 h1
  · intro j
    by_cases hj : j < s.slides.length
    · rw [HeroSlider.goToSlide, HeroSlider.updateSlide_getElem? { s with currentIndex := i } j hj]
      simp [HeroSlider.renderSlide_active]
    · rw [HeroSlider.goToSlide,
        HeroSlider.updateSlide_getElem?_none { s with currentIndex := i } j (by simpa using hj)]
      simp; omega
  · intro j
    by_cases hj : j < s.slides.length
    · rw [HeroSlider.goToSlide, HeroSlider.updateSlide_getElem? { s with currentIndex := i } j hj]
      simp [HeroSlider.renderSlide_ariaHidden]
    · rw [HeroSlider.goToSlide,
        HeroSlider.updateSlide_getElem?_none { s with currentIndex := i } j (by simpa using hj)]
      simp; omega

/-- C3, at four slides and `goToSlide(2)`. -/
theorem hero_goToSlide_single_active_witness :
    (HeroSlider.goToSlide 2 (HeroSlider.four false)).1.currentIndex = 2 ∧
    List.countP (fun x => x.active) (HeroSlider.goToSlide 2 (HeroSlider.four false)).1.slides
      = 1 :=
  ⟨(hero_goToSlide_single_active (HeroSlider.four false) 2 (by decide) (by decide)).2.1,
   (hero_goToSlide_single_active (HeroSlider.four false) 2 (by decide) (by decide)).2.2.2.1⟩

/-- C4, as stated, fails: with two slides and `currentIndex = 0` the slide at
`(0 + 1) mod 2 = 1` is also the slide at `(0 - 1) mod 2`; it is rendered `prev`
and no slide is rendered `next`. -/
theorem hero_render_two_slides_no_next :
    (HeroSlider.init false [HeroSlider.blank, HeroSlider.blank]
        HeroSlider.PlayButton.bare).currentIndex = 0 ∧
    ((0 : Int) + 1) % 2 = 1 ∧
    (HeroSlider.init false [HeroSlider.blank, HeroSlider.blank]
        HeroSlider.PlayButton.bare).slides[1]?
      = some { active := false, prev := true, next := false, ariaHidden := true } ∧
    ¬ (((HeroSlider.init false [HeroSlider.blank, HeroSlider.blank]
        HeroSlider.PlayButton.bare).slides[1]?).map
        (fun x => x.next) = some true) := by
  decide

/-- C4, amended. After `updateSlide` on a non-empty slide list with a valid
`currentIndex = c`, the slide at position `i` is `active` (and not
`aria-hidden`) when `i = c`; otherwise it is `prev` when `i = (c - 1) mod n`;
otherwise it is `next` when `i = (c + 1) mod n`; otherwise it carries none of
the three classes; in the last three cases it is `aria-hidden`.  The three
positions are distinct as soon as there are three slides. -/
theorem hero_render_tags (s : HeroSlider.State) (i : Nat)
    (h0 : 0 ≤ s.currentIndex) (h1 : s.currentIndex < (s.slides.length : Int))
    (hi : i < s.slides.length) :
    (HeroSlider.updateSlide s).1.slides[i]? = some
      (if (i : Int) = s.currentIndex then
        { active := true, prev := false, next := false, ariaHidden := false }
      else if (i : Int) = (s.currentIndex - 1) % (s.slides.length : Int) then
        { active := false, prev := true, next := false, ariaHidden := true }
      else if (i : Int) = (s.currentIndex + 1) % (s.slides.length : Int) then
        { active := false, prev := false, next := true, ariaHidden := true }
      else
        { active := false, prev := false, next := false, ariaHidden := true }) ∧
    (3 ≤ s.slides.length →
      s.currentIndex ≠ (s.currentIndex - 1) % (s.slides.length : Int) ∧
      s.currentIndex ≠ (s.currentIndex + 1) % (s.slides.length : Int) ∧
      (s.currentIndex - 1) % (s.slides.length : Int)
        ≠ (s.currentIndex + 1) % (s.slides.length : Int)) := by
  rw [HeroSlider.updateSlide_getElem? s i hi, emod_pred_of_lt _ _ h0 h1,
    emod_succ_of_lt _ _ h0 h1]
  constructor
  · unfold HeroSlider.renderSlide
    congr 1
    split_ifs <;> first | rfl | omega
  · intro h3
    split_ifs <;> omega

/-- C4, amended, at four slides, `currentIndex = 0` and the last slide, which
is the one before the first. -/
theorem hero_render_tags_witness :
    (HeroSlider.updateSlide (HeroSlider.four false)).1.slides[3]?
      = some { active := false, prev := true, next := false, ariaHidden := true } :=
  (hero_render_tags (HeroSlider.four false) 3 (by decide) (by decide) (by decide)).1

/-! ## Autoplay timers -/

/-- C5. The code leaves two autoplay intervals live.  With four slides and
reduced motion off, two clicks on the next button followed by their two
settle-delay callbacks leave the intervals 1 and 2 live, while `timer` holds
only 2; within one interval window both fire `nextSlide`, so the index moves
from 2 to 0; a later `mouseenter` clears interval 2 only, and interval 1 keeps
ticking.  The same happens with a `mouseleave` right after construction, and
with `startAuto` called twice in succession. -/
theorem hero_two_live_intervals :
    (HeroSlider.run false (HeroSlider.four false)
      [.nextClick, .nextClick, .settle, .settle]).live = [2, 1] ∧
    (HeroSlider.run false (HeroSlider.four false)
      [.nextClick, .nextClick, .settle, .settle]).timer = some 2 ∧
    (HeroSlider.run false (HeroSlider.four false)
      [.nextClick, .nextClick, .settle, .settle]).currentIndex = 2 ∧
    (HeroSlider.run false (HeroSlider.four false)
      [.nextClick, .nextClick, .settle, .settle, .tick 1, .tick 2]).currentIndex = 0 ∧
    (HeroSlider.run false (HeroSlider.four false)
      [.nextClick, .nextClick, .settle, .settle, .mouseEnter]).live = [1] ∧
    (HeroSlider.run false (HeroSlider.four false)
      [.nextClick, .nextClick, .settle, .settle, .mouseEnter, .tick 1]).currentIndex = 3 ∧
    (HeroSlider.run false (HeroSlider.four false) [.mouseLeave]).live = [1, 0] ∧
    (HeroSlider.startAuto false (HeroSlider.startAuto false
      (HeroSlider.stopAuto (HeroSlider.four false)))).live = [2, 1] := by
  decide

/-! ## Swipes on the hero viewport -/

namespace HeroSlider

theorem shown_updateSlide_congr (s t : State) (h : shown s = shown t) :
    shown (updateSlide s).1 = shown (updateSlide t).1 := by
  simp only [shown, Prod.mk.injEq] at h
  obtain ⟨hc, hs, ha⟩ := h
  unfold updateSlide shown
  simp only [hc, hs, ha]
  split <;> rfl

theorem shown_nextSlide_congr (s t : State) (h : shown s = shown t) :
    shown (nextSlide s).1 = shown (nextSlide t).1 := by
  unfold nextSlide
  apply shown_updateSlide_congr
  simp only [shown, Prod.mk.injEq] at h ⊢
  obtain ⟨hc, hs, ha⟩ := h
  simp [hc, hs, ha]

theorem shown_prevSlide_congr (s t : State) (h : shown s = shown t) :
    shown (prevSlide s).1 = shown (prevSlide t).1 := by
  unfold prevSlide
  apply shown_updateSlide_congr
  simp only [shown, Prod.mk.injEq] at h ⊢
  obtain ⟨hc, hs, ha⟩ := h
  simp [hc, hs, ha]

theorem shown_scheduleRestart (reduceMotion : Bool) (r : State × Bool) :
    shown (scheduleRestart reduceMotion r) = shown r.1 := by
  unfold scheduleRestart; split <;> rfl

/-- What `swipe` shows, by the two deltas `startY - endY` and
`startX - endX`. -/
theorem shown_swipe (reduceMotion : Bool) (s : State) (startX startY endX endY : Int) :
    shown (swipe reduceMotion s startX startY endX endY) =
      if |startY - endY| > |startX - endX| then
        if |startY - endY| > 50 then
          if startY - endY > 0 then shown (nextSlide s).1 else shown (prevSlide s).1
        else shown s
      else
        if |startX - endX| > 50 then
          if startX - endX > 0 then shown (nextSlide s).1 else shown (prevSlide s).1
        else shown s := by
  simp only [swipe, run, List.foldl_cons, List.foldl_nil, step, touchEnd, stopAuto,
    shown_scheduleRestart, Bool.not_true, Bool.false_eq_true, if_false]
  split_ifs
  all_goals first
    | rfl
    | (apply shown_nextSlide_congr; rfl)
    | (apply shown_prevSlide_congr; rfl)

end HeroSlider

/-- C6. In the hero slider, for every touch from `(startX, startY)` to
`(endX, endY)`, with `deltaX = startX - endX` and `deltaY = startY - endY`:
when both absolute deltas are at most 50 nothing is navigated (index, rendered
slides and announcements are unchanged); when `|deltaY| > |deltaX|` and
`|deltaY| > 50` exactly one navigation is made, `nextSlide` for `deltaY > 0`
(swipe up) and `prevSlide` otherwise; when `|deltaX| ≥ |deltaY|` and
`|deltaX| > 50` exactly one navigation is made, `nextSlide` for `deltaX > 0`
(swipe left) and `prevSlide` otherwise. -/
theorem hero_swipe_threshold (reduceMotion : Bool) (s : HeroSlider.State)
    (startX startY endX endY : Int) :
    (|startX - endX| ≤ 50 → |startY - endY| ≤ 50 →
      HeroSlider.shown (HeroSlider.swipe reduceMotion s startX startY endX endY)
        = HeroSlider.shown s) ∧
    (|startY - endY| > |startX - endX| → |startY - endY| > 50 →
      HeroSlider.shown (HeroSlider.swipe reduceMotion s startX startY endX endY)
        = if startY - endY > 0 then HeroSlider.shown (HeroSlider.nextSlide s).1
          else HeroSlider.shown (HeroSlider.prevSlide s).1) ∧
    (|startX - endX| ≥ |startY - endY| → |startX - endX| > 50 →
      HeroSlider.shown (HeroSlider.swipe reduceMotion s startX startY endX endY)
        = if startX - endX > 0 then HeroSlider.shown (HeroSlider.nextSlide s).1
          else HeroSlider.shown (HeroSlider.prevSlide s).1) := by
  rw [HeroSlider.shown_swipe]
  refine ⟨fun hx hy => ?_, fun hd hy => ?_, fun hd hx => ?_⟩
  · rw [if_neg (not_lt.2 hx), if_neg (not_lt.2 hy)]; simp
  · rw [if_pos hd, if_pos hy]
  · rw [if_neg (not_lt.2 hd), if_pos hx]

/-- C6, on four slides at index 0: a swipe up of 49px leaves the index at 0, a
swipe up of 51px moves it to 1, and a swipe right of 51px moves it to 3. -/
theorem hero_swipe_threshold_witness :
    (HeroSlider.swipe false (HeroSlider.four false) 10 100 10 51).currentIndex = 0 ∧
    (HeroSlider.swipe false (HeroSlider.four false) 10 100 10 49).currentIndex = 1 ∧
    (HeroSlider.swipe false (HeroSlider.four false) 10 100 61 100).currentIndex = 3 :=
  ⟨congrArg Prod.fst ((hero_swipe_threshold false (HeroSlider.four false) 10 100 10 51).1
      (by decide) (by decide)),
   congrArg Prod.fst ((hero_swipe_threshold false (HeroSlider.four false) 10 100 10 49).2.1
      (by decide) (by decide)),
   congrArg Prod.fst ((hero_swipe_threshold false (HeroSlider.four false) 10 100 61 100).2.2
      (by decide) (by decide))⟩

/-! ## Reduced motion -/

namespace HeroSlider

/-- Under reduced motion no handler creates an interval. -/
theorem step_reduced_no_timer (s : State) (e : Event)
    (h : s.timer = none ∧ s.live = []) :
    (step true s e).timer = none ∧ (step true s e).live = [] := by
  obtain ⟨ht, hl⟩ := h
  cases e with
  | keyDown k =>
    cases k <;>
      simp [step, togglePlay, startAuto, stopAuto, scheduleRestart, clearInterval, ht, hl,
        nextSlide, prevSlide] <;>
      split <;> simp [ht, hl, clearInterval]
  | touchEnd x y =>
    simp only [step, touchEnd, scheduleRestart]
    split_ifs <;> simp [ht, hl, nextSlide, prevSlide]
  | tick t => simp [step, hl, ht]
  | settle =>
    simp only [step]
    split <;> simp [startAuto, ht, hl]
  | playClick =>
    simp only [step, togglePlay]
    split <;> simp [startAuto, stopAuto, clearInterval, ht, hl]
  | _ =>
    simp [step, startAuto, stopAuto, scheduleRestart, clearInterval, ht, hl,
      nextSlide, prevSlide, goToSlide]

theorem run_reduced_no_timer (es : List Event) (s : State)
    (h : s.timer = none ∧ s.live = []) :
    (run true s es).timer = none ∧ (run true s es).live = [] := by
  induction es generalizing s with
  | nil => exact h
  | cons e es ih => exact ih (step true s e) (step_reduced_no_timer s e h)

theorem init_reduced_no_timer (markup : List Slide) (button : PlayButton) :
    (init true markup button).timer = none ∧ (init true markup button).live = [] := by
  simp [init]

/-- Under reduced motion, with no interval live, the play toggle inverts
`playing` and writes the play button; it touches nothing else. -/
theorem togglePlay_reduced (s : State) (h : s.timer = none ∧ s.live = []) :
    togglePlay true s =
      { s with
          playing := !s.playing
          playBtn := if s.playing then PlayButton.stopped else PlayButton.started } := by
  obtain ⟨ht, hl⟩ := h
  unfold togglePlay
  split
  · next hp => simp [stopAuto, clearInterval, ht, hl, hp]
  · next hp => simp [startAuto, hp]

end HeroSlider

/-- C7, as stated, fails: with reduced motion requested, the first click on the
play button after construction turns `playing` from `true` to `false` and
writes `aria-pressed = 'true'` and the icons, so the state after the toggle
differs from the state before it. -/
theorem hero_reduced_toggle_changes_playing :
    (HeroSlider.four true).playing = true ∧
    (HeroSlider.step true (HeroSlider.four true) .playClick).playing = false ∧
    (HeroSlider.four true).playBtn = HeroSlider.PlayButton.bare ∧
    (HeroSlider.step true (HeroSlider.four true) .playClick).playBtn
      = HeroSlider.PlayButton.stopped ∧
    HeroSlider.step true (HeroSlider.four true) .playClick ≠ HeroSlider.four true ∧
    HeroSlider.step true (HeroSlider.four true) (.keyDown .space) ≠ HeroSlider.four true := by
  decide

/-- C7, amended. When reduced motion is requested, in every state reached from
construction by any events no interval is live and `timer` is null, and the
play toggle (button click, `' '` key or `'Spacebar'` key) starts no timer: it
inverts the flag `playing` and writes the play button (`aria-pressed = 'true'`,
play icon hidden, pause icon shown when it was playing; `aria-pressed =
'false'`, play icon shown, pause icon hidden when it was not), and the index,
the slides, the touch variables and the scheduled callbacks are as before. -/
theorem hero_reduced_toggle_starts_no_timer (markup : List HeroSlider.Slide)
    (button : HeroSlider.PlayButton) (es : List HeroSlider.Event) :
    (HeroSlider.run true (HeroSlider.init true markup button) es).timer = none ∧
    (HeroSlider.run true (HeroSlider.init true markup button) es).live = [] ∧
    HeroSlider.step true (HeroSlider.run true (HeroSlider.init true markup button) es)
        .playClick
      = { HeroSlider.run true (HeroSlider.init true markup button) es with
          playing := !(HeroSlider.run true (HeroSlider.init true markup button) es).playing
          playBtn :=
            if (HeroSlider.run true (HeroSlider.init true markup button) es).playing
            then HeroSlider.PlayButton.stopped else HeroSlider.PlayButton.started } ∧
    HeroSlider.step true (HeroSlider.run true (HeroSlider.init true markup button) es)
        (.keyDown .space)
      = { HeroSlider.run true (HeroSlider.init true markup button) es with
          playing := !(HeroSlider.run true (HeroSlider.init true markup button) es).playing
          playBtn :=
            if (HeroSlider.run true (HeroSlider.init true markup button) es).playing
            then HeroSlider.PlayButton.stopped else HeroSlider.PlayButton.started } ∧
    HeroSlider.step true (HeroSlider.run true (HeroSlider.init true markup button) es)
        (.keyDown .spacebar)
      = { HeroSlider.run true (HeroSlider.init true markup button) es with
          playing := !(HeroSlider.run true (HeroSlider.init true markup button) es).playing
          playBtn :=
            if (HeroSlider.run true (HeroSlider.init true markup button) es).playing
            then HeroSlider.PlayButton.stopped else HeroSlider.PlayButton.started } := by
  have h := HeroSlider.run_reduced_no_timer es _
    (HeroSlider.init_reduced_no_timer markup button)
  exact ⟨h.1, h.2, HeroSlider.togglePlay_reduced _ h, HeroSlider.togglePlay_reduced _ h,
    HeroSlider.togglePlay_reduced _ h⟩

/-! ## Validity of the current index -/

namespace HeroSlider

theorem nextSlide_inRange (s : State)
    (h0 : 0 ≤ s.currentIndex) (h1 : s.currentIndex < (s.slides.length : Int)) :
    0 ≤ (nextSlide s).1.currentIndex ∧
      (nextSlide s).1.currentIndex < ((nextSlide s).1.slides.length : Int) := by
  simp only [nextSlide, updateSlide_currentIndex, updateSlide_length,
    tmod_succ_of_lt _ _ h0 h1]
  split <;> omega

theorem prevSlide_inRange (s : State)
    (h0 : 0 ≤ s.currentIndex) (h1 : s.currentIndex < (s.slides.length : Int)) :
    0 ≤ (prevSlide s).1.currentIndex ∧
      (prevSlide s).1.currentIndex < ((prevSlide s).1.slides.length : Int) := by
  simp only [prevSlide, updateSlide_currentIndex, updateSlide_length,
    tmod_pred_of_lt _ _ h0 h1]
  split <;> omega

theorem request_length (s : State) (r : Request) :
    (request s r).slides.length = s.slides.length := by
  cases r <;> simp [request, nextSlide, prevSlide, goToSlide]

theorem request_inRange (s : State) (r : Request)
    (h0 : 0 ≤ s.currentIndex) (h1 : s.currentIndex < (s.slides.length : Int))
    (hr : r.inRange s.slides.length) :
    0 ≤ (request s r).currentIndex ∧
      (request s r).currentIndex < ((request s r).slides.length : Int) := by
  cases r with
  | next => exact nextSlide_inRange s h0 h1
  | previous => exact prevSlide_inRange s h0 h1
  | goTo index => simpa [request, goToSlide, Request.inRange] using hr

theorem requests_inRange (rs : List Request) (s : State)
    (h0 : 0 ≤ s.currentIndex) (h1 : s.currentIndex < (s.slides.length : Int))
    (hr : ∀ r ∈ rs, r.inRange s.slides.length) :
    0 ≤ (rs.foldl request s).currentIndex ∧
      (rs.foldl request s).currentIndex < (s.slides.length : Int) := by
  induction rs generalizing s with
  | nil => exact ⟨h0, h1⟩
  | cons r rs ih =>
    have hstep := request_inRange s r h0 h1 (hr r (List.mem_cons_self r rs))
    have hlen := request_length s r
    have := ih (request s r) hstep.1 hstep.2
      (fun q hq => by rw [hlen]; exact hr q (List.mem_cons_of_mem r hq))
    rw [hlen] at this
    exact this

end HeroSlider

/-- C8, as stated, fails: on four slides `goToSlide(7)` stores 7 in
`currentIndex` (and then throws while rendering), and so does a click on an
eighth indicator; 7 is outside `0 .. 3`. -/
theorem hero_goToSlide_stores_out_of_range :
    (HeroSlider.request (HeroSlider.four false) (.goTo 7)).currentIndex = 7 ∧
    (HeroSlider.goToSlide 7 (HeroSlider.four false)).2 = false ∧
    (HeroSlider.step false (HeroSlider.four false) (.indicatorClick 7)).currentIndex = 7 ∧
    ¬ ((HeroSlider.request (HeroSlider.four false) (.goTo 7)).currentIndex
        ≤ ((HeroSlider.four false).slides.length : Int) - 1) := by
  decide

/-- C8, amended. In the hero slider, from a valid `currentIndex`, after every
sequence of `nextSlide`, `prevSlide` and `goToSlide(i)` requests whose `i` all
satisfy `0 ≤ i < n`, `currentIndex` is in `0 .. n - 1`; `goToSlide(i)` stores
`i` as given, whatever `i` is. -/
theorem hero_currentIndex_in_range (s : HeroSlider.State) (rs : List HeroSlider.Request)
    (h0 : 0 ≤ s.currentIndex) (h1 : s.currentIndex < (s.slides.length : Int))
    (hr : ∀ r ∈ rs, r.inRange s.slides.length) :
    0 ≤ (rs.foldl HeroSlider.request s).currentIndex ∧
    (rs.foldl HeroSlider.request s).currentIndex ≤ (s.slides.length : Int) - 1 ∧
    (∀ i : Int, (HeroSlider.goToSlide i s).1.currentIndex = i) := by
  have h := HeroSlider.requests_inRange rs s h0 h1 hr
  refine ⟨h.1, by omega, fun i => ?_⟩
  simp [HeroSlider.goToSlide]

/-- C8, amended, on four slides and the requests next, goToSlide(3), next,
previous, previous. -/
theorem hero_currentIndex_in_range_witness :
    0 ≤ (([.next, .goTo 3, .next, .previous, .previous] : List HeroSlider.Request).foldl
          HeroSlider.request (HeroSlider.four false)).currentIndex ∧
    (([.next, .goTo 3, .next, .previous, .previous] : List HeroSlider.Request).foldl
          HeroSlider.request (HeroSlider.four false)).currentIndex
      ≤ ((HeroSlider.four false).slides.length : Int) - 1 :=
  ⟨(hero_currentIndex_in_range (HeroSlider.four false)
      [.next, .goTo 3, .next, .previous, .previous] (by decide) (by decide)
      (by decide)).1,
   (hero_currentIndex_in_range (HeroSlider.four false)
      [.next, .goTo 3, .next, .previous, .previous] (by decide) (by decide)
      (by decide)).2.1⟩

/-! ## Pause on interaction, resume after the settle delay -/

namespace HeroSlider

theorem updateSlide_eq (s : State) :
    updateSlide s =
      ({ s with
          slides := (List.range s.slides.length).map (renderSlide s.slides.length s.currentIndex)
          announced := if 0 ≤ s.currentIndex ∧ s.currentIndex < (s.slides.length : Int)
            then s.announced + 1 else s.announced },
        decide (0 ≤ s.currentIndex ∧ s.currentIndex < (s.slides.length : Int))) := by
  unfold updateSlide
  split
  · next h => simp [h]
  · next h => simp [h]

theorem one_tmod (n : Int) (hn : 1 ≤ n) : (0 + 1 : Int).tmod n = 1 % n :=
  Int.tmod_eq_emod (by omega) (by omega)

theorem one_emod_bounds (n : Int) (hn : 1 ≤ n) : 0 ≤ 1 % n ∧ 1 % n < n :=
  ⟨Int.emod_nonneg 1 (by omega), Int.emod_lt_of_pos 1 (by omega)⟩

theorem one_emod_pred (n : Int) (hn : 1 ≤ n) : (1 % n - 1 + n).tmod n = 0 := by
  have hb := one_emod_bounds n hn
  rw [tmod_pred_of_lt n (1 % n) hb.1 hb.2]
  by_cases h : n = 1
  · subst h; decide
  · have h1 : (1 : Int) % n = 1 := Int.emod_eq_of_lt (by omega) (by omega)
    rw [h1]; simp

end HeroSlider

/-- C9. In the hero slider with reduced motion off and at least one slide, whatever
the page declares for the play button,
construction leaves `currentIndex = 0` with autoplay running on interval 0.
Then: a tick of that interval gives `currentIndex = 1 mod n`; a click on the
previous button gives `currentIndex = 0`, with no live interval, `timer` null,
`playing` false and one restart scheduled; the settle-delay callback leaves
`currentIndex = 0` and starts autoplay again, on interval 1; a tick of that
interval gives `currentIndex = 1 mod n`. -/
theorem hero_pause_then_resume (markup : List HeroSlider.Slide)
    (button : HeroSlider.PlayButton) (hn : 1 ≤ markup.length) :
    ((HeroSlider.init false markup button).currentIndex = 0 ∧
      (HeroSlider.init false markup button).live = [0] ∧
      (HeroSlider.init false markup button).timer = some 0 ∧
      (HeroSlider.init false markup button).playing = true) ∧
    (HeroSlider.run false (HeroSlider.init false markup button) [.tick 0]).currentIndex
      = 1 % (markup.length : Int) ∧
    ((HeroSlider.run false (HeroSlider.init false markup button) [.tick 0, .prevClick]).currentIndex
        = 0 ∧
      (HeroSlider.run false (HeroSlider.init false markup button) [.tick 0, .prevClick]).live = [] ∧
      (HeroSlider.run false (HeroSlider.init false markup button) [.tick 0, .prevClick]).timer
        = none ∧
      (HeroSlider.run false (HeroSlider.init false markup button) [.tick 0, .prevClick]).playing
        = false ∧
      (HeroSlider.run false (HeroSlider.init false markup button) [.tick 0, .prevClick]).pending
        = 1) ∧
    ((HeroSlider.run false (HeroSlider.init false markup button)
        [.tick 0, .prevClick, .settle]).currentIndex = 0 ∧
      (HeroSlider.run false (HeroSlider.init false markup button)
        [.tick 0, .prevClick, .settle]).live = [1] ∧
      (HeroSlider.run false (HeroSlider.init false markup button)
        [.tick 0, .prevClick, .settle]).timer = some 1 ∧
      (HeroSlider.run false (HeroSlider.init false markup button)
        [.tick 0, .prevClick, .settle]).playing = true) ∧
    (HeroSlider.run false (HeroSlider.init false markup button)
        [.tick 0, .prevClick, .settle, .tick 1]).currentIndex = 1 % (markup.length : Int) := by
  have hn1 : (1 : Int) ≤ (markup.length : Int) := by omega
  have hb := HeroSlider.one_emod_bounds _ hn1
  have ht := HeroSlider.one_tmod _ hn1
  have hp := HeroSlider.one_emod_pred _ hn1
  simp only [zero_add] at ht
  have hpos : 0 < markup.length := by omega
  refine ⟨?_, ?_, ?_, ?_, ?_⟩ <;>
    simp [HeroSlider.run, HeroSlider.step, HeroSlider.init, HeroSlider.startAuto,
      HeroSlider.stopAuto, HeroSlider.scheduleRestart, HeroSlider.nextSlide,
      HeroSlider.prevSlide, HeroSlider.updateSlide_eq, HeroSlider.clearInterval,
      ht, hp, hb, hn1, hpos]

/-- C9, at four slides: the indices are 1, 0, 0, 1. -/
theorem hero_pause_then_resume_witness :
    (HeroSlider.run false (HeroSlider.four false) [.tick 0]).currentIndex = 1 % (4 : Int) ∧
    (HeroSlider.run false (HeroSlider.four false) [.tick 0, .prevClick]).live = [] ∧
    (HeroSlider.run false (HeroSlider.four false) [.tick 0, .prevClick, .settle]).live = [1] ∧
    (HeroSlider.run false (HeroSlider.four false)
      [.tick 0, .prevClick, .settle, .tick 1]).currentIndex = 1 % (4 : Int) :=
  ⟨(hero_pause_then_resume [HeroSlider.blank, HeroSlider.blank, HeroSlider.blank,
      HeroSlider.blank] HeroSlider.PlayButton.bare (by decide)).2.1,
   (hero_pause_then_resume [HeroSlider.blank, HeroSlider.blank, HeroSlider.blank,
      HeroSlider.blank] HeroSlider.PlayButton.bare (by decide)).2.2.1.2.1,
   (hero_pause_then_resume [HeroSlider.blank, HeroSlider.blank, HeroSlider.blank,
      HeroSlider.blank] HeroSlider.PlayButton.bare (by decide)).2.2.2.1.2.1,
   (hero_pause_then_resume [HeroSlider.blank, HeroSlider.blank, HeroSlider.blank,
      HeroSlider.blank] HeroSlider.PlayButton.bare (by decide)).2.2.2.2⟩

/-! ## Hovering -/

/-- C10. The code restarts autoplay under the pointer.  On four slides with
reduced motion off, after a `mouseenter` no interval is live; an ArrowDown key
press then schedules `setTimeout(startAuto, 1000)`, and when that callback
runs, with no `mouseleave` in between, interval 1 is live, `playing` is true,
and its tick moves the index from 1 to 2 while the pointer is still over the
viewport.  A click on next or on the play button after the `mouseenter` ends
the same way. -/
theorem hero_hover_autoplay_resumes :
    (HeroSlider.run false (HeroSlider.four false) [.mouseEnter]).live = [] ∧
    (HeroSlider.run false (HeroSlider.four false)
      [.mouseEnter, .keyDown .arrowDown]).pending = 1 ∧
    (HeroSlider.run false (HeroSlider.four false)
      [.mouseEnter, .keyDown .arrowDown, .settle]).live = [1] ∧
    (HeroSlider.run false (HeroSlider.four false)
      [.mouseEnter, .keyDown .arrowDown, .settle]).playing = true ∧
    (HeroSlider.run false (HeroSlider.four false)
      [.mouseEnter, .keyDown .arrowDown, .settle]).currentIndex = 1 ∧
    (HeroSlider.run false (HeroSlider.four false)
      [.mouseEnter, .keyDown .arrowDown, .settle, .tick 1]).currentIndex = 2 ∧
    (HeroSlider.run false (HeroSlider.four false)
      [.mouseEnter, .nextClick, .settle]).live = [1] ∧
    (HeroSlider.run false (HeroSlider.four false) [.mouseEnter, .playClick]).live = [1] ∧
    ¬ ((HeroSlider.run false (HeroSlider.four false)
      [.mouseEnter, .keyDown .arrowDown, .settle]).live = []) := by
  decide

/-! ## Schools slider: swipes and arrows -/

namespace Schools

@[simp] theorem move_idx (s : State) : (move s).idx = s.idx := rfl

@[simp] theorem move_dots (s : State) :
    (move s).dots = (List.range s.dots.length).map (fun (i : Nat) => decide ((i : Int) = s.idx)) := rfl

@[simp] theorem touchStartHandler_sx (x : Int) (s : State) :
    (touchStartHandler x s).sx = x := rfl

@[simp] theorem touchStartHandler_idx (x : Int) (s : State) :
    (touchStartHandler x s).idx = s.idx := rfl

@[simp] theorem touchStartHandler_cards (x : Int) (s : State) :
    (touchStartHandler x s).cards = s.cards := rfl

@[simp] theorem touchStartHandler_dots (x : Int) (s : State) :
    (touchStartHandler x s).dots = s.dots := rfl

/-- The index the `touchend` handler leaves. -/
theorem touchEndHandler_idx (clientX : Int) (s : State) :
    (touchEndHandler clientX s).idx =
      if clientX - s.sx < -30 then min ((s.cards : Int) - 1) (s.idx + 1)
      else if clientX - s.sx > 30 then max 0 (s.idx - 1)
      else s.idx := by
  unfold touchEndHandler
  by_cases h1 : clientX - s.sx < -30
  · have h2 : ¬ clientX - s.sx > 30 := by omega
    simp [h1, h2]
  · by_cases h2 : clientX - s.sx > 30
    · simp [h1, h2]
    · simp [h1, h2]

/-- The dots after the `touchend` handler show the index it leaves. -/
theorem touchEndHandler_dots (clientX : Int) (s : State) :
    (touchEndHandler clientX s).dots =
      (List.range s.dots.length).map
        (fun (i : Nat) => decide ((i : Int) = (touchEndHandler clientX s).idx)) := by
  unfold touchEndHandler
  by_cases h1 : clientX - s.sx < -30
  · have h2 : ¬ clientX - s.sx > 30 := by omega
    simp [h1, h2]
  · by_cases h2 : clientX - s.sx > 30
    · simp [h1, h2]
    · simp [h1, h2]

end Schools

/-- C11, as stated, fails: with four cards at `idx = 3` a left swipe of 31px
leaves `idx = 3`, where the next arrow gives 0; at `idx = 0` a right swipe of
31px leaves `idx = 0`, where the previous arrow gives 3. -/
theorem schools_swipe_clamps_where_arrows_wrap :
    (Schools.run 4 (Schools.construct 4 600)
      [.dotClick 3, .touchStart 100, .touchEnd 69]).idx = 3 ∧
    (Schools.run 4 (Schools.construct 4 600) [.dotClick 3, .nextClick]).idx = 0 ∧
    (Schools.run 4 (Schools.construct 4 600) [.touchStart 100, .touchEnd 131]).idx = 0 ∧
    (Schools.run 4 (Schools.construct 4 600) [.prevClick]).idx = 3 := by
  decide

/-- C11, amended. In the schools slider with `n ≥ 1` cards and `idx` in
`0 .. n - 1`, for a touch from `startX` to `endX`: a left swipe of more than
30px gives `idx = min (n - 1) (idx + 1)`, which is what the next arrow gives
(index and dots) unless `idx = n - 1`, where the swipe leaves `idx` and the
arrow gives 0; a right swipe of more than 30px gives `idx = max 0 (idx - 1)`,
which is what the previous arrow gives unless `idx = 0`, where the swipe
leaves 0 and the arrow gives `n - 1`; a delta of 30px or less either way
leaves `idx` unchanged. -/
theorem schools_swipe_vs_arrows (s : Schools.State) (startX endX : Int)
    (h0 : 0 ≤ s.idx) (h1 : s.idx < (s.cards : Int)) :
    (endX - startX < -30 →
      (Schools.touchEndHandler endX (Schools.touchStartHandler startX s)).idx
        = min ((s.cards : Int) - 1) (s.idx + 1) ∧
      (s.idx + 1 < (s.cards : Int) →
        (Schools.touchEndHandler endX (Schools.touchStartHandler startX s)).idx
          = (Schools.nextHandler s).idx ∧
        (Schools.touchEndHandler endX (Schools.touchStartHandler startX s)).dots
          = (Schools.nextHandler s).dots) ∧
      (s.idx + 1 = (s.cards : Int) →
        (Schools.touchEndHandler endX (Schools.touchStartHandler startX s)).idx = s.idx ∧
        (Schools.nextHandler s).idx = 0)) ∧
    (endX - startX > 30 →
      (Schools.touchEndHandler endX (Schools.touchStartHandler startX s)).idx
        = max 0 (s.idx - 1) ∧
      (0 < s.idx →
        (Schools.touchEndHandler endX (Schools.touchStartHandler startX s)).idx
          = (Schools.prevHandler s).idx ∧
        (Schools.touchEndHandler endX (Schools.touchStartHandler startX s)).dots
          = (Schools.prevHandler s).dots) ∧
      (s.idx = 0 →
        (Schools.touchEndHandler endX (Schools.touchStartHandler startX s)).idx = 0 ∧
        (Schools.prevHandler s).idx = (s.cards : Int) - 1)) ∧
    (-30 ≤ endX - startX → endX - startX ≤ 30 →
      (Schools.touchEndHandler endX (Schools.touchStartHandler startX s)).idx = s.idx) := by
  have hnext : (Schools.nextHandler s).idx = if s.idx + 1 = (s.cards : Int) then 0 else s.idx + 1 := by
    simp only [Schools.nextHandler, Schools.move_idx, Schools.nextArrow]
    exact tmod_succ_of_lt _ _ h0 h1
  have hprev : (Schools.prevHandler s).idx = if s.idx = 0 then (s.cards : Int) - 1 else s.idx - 1 := by
    simp only [Schools.prevHandler, Schools.move_idx, Schools.prevArrow]
    exact tmod_pred_of_lt _ _ h0 h1
  have hidx := Schools.touchEndHandler_idx endX (Schools.touchStartHandler startX s)
  have hdots := Schools.touchEndHandler_dots endX (Schools.touchStartHandler startX s)
  simp only [Schools.touchStartHandler_sx, Schools.touchStartHandler_idx,
    Schools.touchStartHandler_cards] at hidx
  rw [Schools.touchStartHandler_dots] at hdots
  refine ⟨fun hl => ?_, fun hr => ?_, fun ha hb => ?_⟩
  · rw [if_pos hl] at hidx
    refine ⟨hidx, fun hlt => ?_, fun heq => ?_⟩
    · have e : (Schools.touchEndHandler endX (Schools.touchStartHandler startX s)).idx
          = (Schools.nextHandler s).idx := by
        rw [hidx, hnext, if_neg (by omega)]; omega
      refine ⟨e, ?_⟩
      rw [hdots]; simp only [e]; rfl
    · rw [hidx, hnext, if_pos heq]
      exact ⟨by omega, rfl⟩
  · rw [if_neg (by omega), if_pos hr] at hidx
    refine ⟨hidx, fun hpos => ?_, fun hz => ?_⟩
    · have e : (Schools.touchEndHandler endX (Schools.touchStartHandler startX s)).idx
          = (Schools.prevHandler s).idx := by
        rw [hidx, hprev, if_neg (by omega)]; omega
      refine ⟨e, ?_⟩
      rw [hdots]; simp only [e]; rfl
    · rw [hidx, hprev, if_pos hz]
      exact ⟨by omega, rfl⟩
  · rw [if_neg (by omega), if_neg (by omega)] at hidx
    exact hidx

/-- C11, amended, on four mounted cards at `idx = 1`: a left swipe of 31px
gives 2 as the next arrow does, a right swipe of 31px gives 0 as the previous
arrow does, and a swipe of 30px leaves 1. -/
theorem schools_swipe_vs_arrows_witness :
    (Schools.touchEndHandler 69 (Schools.touchStartHandler 100
        (Schools.run 4 (Schools.construct 4 600) [.dotClick 1]))).idx
      = (Schools.nextHandler (Schools.run 4 (Schools.construct 4 600) [.dotClick 1])).idx ∧
    (Schools.touchEndHandler 131 (Schools.touchStartHandler 100
        (Schools.run 4 (Schools.construct 4 600) [.dotClick 1]))).idx
      = (Schools.prevHandler (Schools.run 4 (Schools.construct 4 600) [.dotClick 1])).idx ∧
    (Schools.touchEndHandler 70 (Schools.touchStartHandler 100
        (Schools.run 4 (Schools.construct 4 600) [.dotClick 1]))).idx
      = (Schools.run 4 (Schools.construct 4 600) [.dotClick 1]).idx :=
  ⟨(((schools_swipe_vs_arrows (Schools.run 4 (Schools.construct 4 600) [.dotClick 1]) 100 69
      (by decide) (by decide)).1 (by decide)).2.1 (by decide)).1,
   (((schools_swipe_vs_arrows (Schools.run 4 (Schools.construct 4 600) [.dotClick 1]) 100 131
      (by decide) (by decide)).2.1 (by decide)).2.1 (by decide)).1,
   (schools_swipe_vs_arrows (Schools.run 4 (Schools.construct 4 600) [.dotClick 1]) 100 70
      (by decide) (by decide)).2.2 (by decide) (by decide)⟩

/-! ## Schools slider: mounting -/

namespace Schools

theorem init_mountedOnce (grid : Nat) (s : State) (h : MountedOnce s) :
    MountedOnce (init grid s) := by
  unfold init
  split
  · exact h
  · next hi =>
    rcases h with ⟨h1, _⟩ | ⟨_, h2⟩
    · exact absurd h1 hi
    · left; simp [move, h2]

theorem check_mountedOnce (grid : Nat) (w : Int) (s : State) (h : MountedOnce s) :
    MountedOnce (check grid w s) := by
  unfold check
  split
  · exact init_mountedOnce grid _ h
  · exact h

/-- Running the registered handlers of an event does not mount. -/
theorem iterate_mountedOnce (f : State → State) (s : State)
    (hf : ∀ t, (f t).initialized = t.initialized ∧ (f t).mounts = t.mounts)
    (h : MountedOnce s) : MountedOnce (f^[s.mounts] s) := by
  rcases h with ⟨h1, h2⟩ | ⟨h1, h2⟩
  · rw [h2, Function.iterate_one]
    left; exact ⟨(hf s).1.trans h1, (hf s).2.trans h2⟩
  · rw [h2, Function.iterate_zero]
    right; exact ⟨h1, h2⟩

theorem touchEndHandler_frame (x : Int) (t : State) :
    (touchEndHandler x t).initialized = t.initialized ∧
      (touchEndHandler x t).mounts = t.mounts := by
  unfold touchEndHandler
  by_cases h1 : x - t.sx < -30 <;> by_cases h2 : x - t.sx > 30 <;> simp [h1, h2, move]

theorem step_mountedOnce (grid : Nat) (s : State) (e : Event) (h : MountedOnce s) :
    MountedOnce (step grid s e) := by
  cases e with
  | resize w => exact check_mountedOnce grid w s h
  | prevClick => exact iterate_mountedOnce _ s (fun t => ⟨rfl, rfl⟩) h
  | nextClick => exact iterate_mountedOnce _ s (fun t => ⟨rfl, rfl⟩) h
  | dotClick i =>
    simp only [step]
    split
    · exact h
    · exact h
  | touchStart x => exact iterate_mountedOnce _ s (fun t => ⟨rfl, rfl⟩) h
  | touchEnd x => exact iterate_mountedOnce _ s (touchEndHandler_frame x) h

theorem run_mountedOnce (grid : Nat) (es : List Event) (s : State) (h : MountedOnce s) :
    MountedOnce (run grid s es) := by
  induction es generalizing s with
  | nil => exact h
  | cons e es ih => exact ih (step grid s e) (step_mountedOnce grid s e h)

theorem construct_mountedOnce (grid : Nat) (w : Int) : MountedOnce (construct grid w) :=
  check_mountedOnce grid w _ (Or.inr ⟨rfl, rfl⟩)

/-- Once mounted, `check` writes the two visibility attributes only. -/
theorem check_of_initialized (grid : Nat) (w : Int) (s : State) (h : s.initialized = true) :
    check grid w s =
      { s with gridHidden := decide (w ≤ 640), mobileHidden := !decide (w ≤ 640) } := by
  unfold check init
  split
  · next hw => simp [h, hw]
  · next hw => simp [hw]

end Schools

/-- C12. In the schools slider, in every state reached from construction (in a
window of any width) by any sequence of events, resizes to widths above and
at-or-below 640px included, the body of `init` has run at most once, and
exactly once when `initialized` is set; a further `check()` call never changes
`idx`, and once mounted it changes nothing but the two visibility attributes:
the number of registered handlers, the cards, the dots and the touch origin
are as before, whether the call shows or hides the mobile structure. -/
theorem schools_mounts_once (grid : Nat) (w0 w : Int) (es : List Schools.Event) :
    (Schools.run grid (Schools.construct grid w0) es).mounts ≤ 1 ∧
    ((Schools.run grid (Schools.construct grid w0) es).initialized = true ↔
      (Schools.run grid (Schools.construct grid w0) es).mounts = 1) ∧
    (Schools.step grid (Schools.run grid (Schools.construct grid w0) es) (.resize w)).mounts
      ≤ 1 ∧
    (Schools.step grid (Schools.run grid (Schools.construct grid w0) es) (.resize w)).idx
      = (Schools.run grid (Schools.construct grid w0) es).idx ∧
    ((Schools.run grid (Schools.construct grid w0) es).initialized = true →
      Schools.step grid (Schools.run grid (Schools.construct grid w0) es) (.resize w)
        = { Schools.run grid (Schools.construct grid w0) es with
            gridHidden := decide (w ≤ 640), mobileHidden := !decide (w ≤ 640) }) := by
  have h := Schools.run_mountedOnce grid es _ (Schools.construct_mountedOnce grid w0)
  have h2 := Schools.step_mountedOnce grid _ (.resize w) h
  refine ⟨?_, ?_, ?_, ?_, fun hi => Schools.check_of_initialized grid w _ hi⟩
  · rcases h with ⟨_, hm⟩ | ⟨_, hm⟩ <;> omega
  · rcases h with ⟨hi, hm⟩ | ⟨hi, hm⟩ <;> simp [hi, hm]
  · rcases h2 with ⟨_, hm⟩ | ⟨_, hm⟩ <;> omega
  · simp only [Schools.step, Schools.check, Schools.init]
    split
    · split <;> rfl
    · rfl

/-- C12, on four cards in a window first 800px wide: after resizes to 600,
700 and 500px and a click on next, one more resize to 900px leaves `idx = 1`
and one set of handlers. -/
theorem schools_mounts_once_witness :
    Schools.step 4 (Schools.run 4 (Schools.construct 4 800)
        [.resize 600, .resize 700, .resize 500, .nextClick]) (.resize 900)
      = { Schools.run 4 (Schools.construct 4 800)
            [.resize 600, .resize 700, .resize 500, .nextClick] with
          gridHidden := decide ((900 : Int) ≤ 640), mobileHidden := !decide ((900 : Int) ≤ 640) } :=
  (schools_mounts_once 4 800 900 [.resize 600, .resize 700, .resize 500, .nextClick]).2.2.2.2
    (by decide)

/-! ## Exhibition slider: the visible window -/

namespace Exhibition

theorem update_rendered (s : State) : Rendered (update s) := by
  unfold Rendered update
  split
  · next h =>
    have hn : s.cards = [] := List.length_eq_zero.1 h
    simp [hn]
  · simp

theorem click_rendered (s : State) (c : Click) : Rendered (click s c) := by
  cases c <;> exact update_rendered _

theorem run_rendered (cs : List Click) (s : State) (h : Rendered s) : Rendered (run s cs) := by
  induction cs generalizing s with
  | nil => exact h
  | cons c cs ih => exact ih (click s c) (click_rendered s c)

/-- Among the positions `0 .. n - 1`, those from `k` to `k + 2` number
`min n (k + 3) - min n k`. -/
theorem countP_window (k n : Nat) :
    List.countP (fun i => decide (k ≤ i ∧ i ≤ k + 2)) (List.range n)
      = min n (k + 3) - min n k := by
  induction n with
  | zero => simp
  | succ m ih =>
    rw [List.range_succ, List.countP_append, ih]
    by_cases h : k ≤ m ∧ m ≤ k + 2
    · simp only [List.countP_cons, List.countP_nil, h, and_self, decide_True, if_true]
      omega
    · simp only [List.countP_cons, List.countP_nil, h, decide_False, Bool.false_eq_true,
        if_false]
      omega

/-- A rendered state with its window inside the track shows exactly three
cards. -/
theorem countP_visible (s : State) (hr : Rendered s)
    (h0 : 0 ≤ s.idx) (h1 : s.idx + 2 < (s.cards.length : Int)) :
    List.countP (fun hidden => !hidden) s.cards = 3 := by
  rw [hr, List.countP_map]
  have hc : List.countP ((fun hidden => !hidden) ∘
        (fun i : Nat => decide ((i : Int) < s.idx ∨ (i : Int) > s.idx + 2)))
        (List.range s.cards.length)
      = List.countP (fun i => decide (s.idx.toNat ≤ i ∧ i ≤ s.idx.toNat + 2))
        (List.range s.cards.length) := by
    apply List.countP_congr
    intro i _
    simp only [Function.comp, Bool.not_eq_true', decide_eq_false_iff_not, decide_eq_true_eq]
    omega
  rw [hc, countP_window]
  omega

theorem getElem?_of_rendered (s : State) (hr : Rendered s) (i : Nat)
    (hi : i < s.cards.length) :
    s.cards[i]? = some (decide ((i : Int) < s.idx ∨ (i : Int) > s.idx + 2)) := by
  rw [hr]
  simp [List.getElem?_range hi]

end Exhibition

/-- C13. In the exhibition slider with at least three cards, after every finite
sequence of next and previous clicks from construction, the number of cards is
unchanged, the cards `idx`, `idx + 1` and `idx + 2` all exist, exactly three
cards have `aria-hidden` false, card `i` has `aria-hidden` false exactly when
`idx ≤ i ≤ idx + 2`, and every other card has `aria-hidden` true. -/
theorem exhibition_three_visible (markup : List Bool) (cs : List Exhibition.Click)
    (h3 : 3 ≤ markup.length) :
    (Exhibition.run (Exhibition.init markup) cs).cards.length = markup.length ∧
    0 ≤ (Exhibition.run (Exhibition.init markup) cs).idx ∧
    (Exhibition.run (Exhibition.init markup) cs).idx + 2 < (markup.length : Int) ∧
    List.countP (fun hidden => !hidden) (Exhibition.run (Exhibition.init markup) cs).cards
      = 3 ∧
    (∀ i : Nat, (Exhibition.run (Exhibition.init markup) cs).cards[i]? = some false ↔
      Exhibition.inWindow (Exhibition.run (Exhibition.init markup) cs).idx i) ∧
    (∀ i : Nat, i < markup.length →
      ¬ Exhibition.inWindow (Exhibition.run (Exhibition.init markup) cs).idx i →
      (Exhibition.run (Exhibition.init markup) cs).cards[i]? = some true) := by
  have hc := Exhibition.run_clamped cs (Exhibition.init markup) (Exhibition.init_clamped markup)
  have hr := Exhibition.run_rendered cs (Exhibition.init markup) (Exhibition.update_rendered _)
  have hl : (Exhibition.init markup).cards.length = markup.length := by
    simp [Exhibition.init]
  obtain ⟨⟨h0, h1⟩, h2⟩ := hc
  rw [hl] at h2
  rw [h2] at h1
  have hw : (Exhibition.run (Exhibition.init markup) cs).idx + 2 < (markup.length : Int) := by
    omega
  refine ⟨h2, h0, hw, ?_, fun i => ?_, fun i hi hn => ?_⟩
  · exact Exhibition.countP_visible _ hr h0 (by rw [h2]; exact hw)
  · by_cases hi : i < markup.length
    · rw [Exhibition.getElem?_of_rendered _ hr i (by rw [h2]; exact hi)]
      simp only [Option.some.injEq, decide_eq_false_iff_not, Exhibition.inWindow]
      omega
    · have hnone : (Exhibition.run (Exhibition.init markup) cs).cards[i]? = none := by
        rw [List.getElem?_eq_none_iff, h2]; omega
      rw [hnone]
      unfold Exhibition.inWindow
      constructor
      · intro hf; exact absurd hf (by simp)
      · intro hwin; omega
  · rw [Exhibition.getElem?_of_rendered _ hr i (by rw [h2]; exact hi)]
    simp only [Option.some.injEq, decide_eq_true_eq]
    unfold Exhibition.inWindow at hn
    omega

/-- C13, at five cards after next, next, next, previous: `idx = 1` and exactly
three cards are visible. -/
theorem exhibition_three_visible_witness :
    List.countP (fun hidden => !hidden)
      (Exhibition.run (Exhibition.init [true, true, true, true, true])
        [Exhibition.Click.next, Exhibition.Click.next, Exhibition.Click.next,
          Exhibition.Click.prev]).cards = 3 :=
  (exhibition_three_visible [true, true, true, true, true]
    [Exhibition.Click.next, Exhibition.Click.next, Exhibition.Click.next,
      Exhibition.Click.prev] (by decide)).2.2.2.1
